import Mathlib

/-
Verification of src/cmd2/mixins/rich.py: the Cmd2PrintProtocol printing
contract and the RichCmd mixin that overrides __init__ and pexcept.

Shallow embedding: stream handles are naturals, the ambient exception
context (sys.exc_info) is an Option, a rich Console is identified by the
binding it is constructed with, and each method call is embedded as a pure
function returning the delegation it performs (and, where relevant, the
post-state and the list of write events produced).
-/

/-- A writable stream object, identified by a handle. -/
abbrev StreamHandle := Nat

/-- The ambient exception context probed by sys.exc_info():
`none` models the triple (None, None, None), `some x` an active exception. -/
abbrev ExcInfo := Option Nat

/-- The destination a rich Console is bound to at construction:
`Console(file=h)` binds to the stream handle h, `Console(stderr=True)` binds
to the fixed error channel. -/
inductive ConsoleBinding where
  | file (h : StreamHandle)
  | stderrChannel
deriving DecidableEq, Repr

/-- A rich rendering session; its binding is fixed at construction. -/
structure Console where
  binding : ConsoleBinding
deriving DecidableEq, Repr

/-- The host (cmd2.Cmd) attributes the mixin reads: the mutable stdout
stream and the Cmd2PrintProtocol debug flag. -/
structure HostState where
  stdout : StreamHandle
  debug : Bool
deriving DecidableEq, Repr

/-- State of a RichCmd instance: the host attributes plus the two Console
sessions created in RichCmd.__init__ (src lines 183-185). -/
structure RichCmd where
  host : HostState
  rich_out : Console
  rich_err : Console
deriving DecidableEq, Repr

/-- RichCmd.__init__ (src lines 182-185): first `super().__init__(*args,
**kwargs)` runs the host initializer on the unchanged arguments, then
`self.rich_out = Console(file=self.stdout)` and
`self.rich_err = Console(stderr=True)` create the two sessions, the first
bound to the stdout handle the completed host initialization produced. -/
def RichCmd.init {α : Type} (hostInit : α → HostState) (args : α) : RichCmd :=
  let h := hostInit args
  { host := h
    rich_out := { binding := ConsoleBinding.file h.stdout }
    rich_err := { binding := ConsoleBinding.stderrChannel } }

/-- The delegation performed by one RichCmd.pexcept call: either
`rich_err.print_exception(show_locals=...)` or
`super().pexcept(msg, end=..., apply_style=...)`. -/
inductive PexceptAction (μ : Type) where
  | printException (session : Console) (show_locals : Bool)
  | superPexcept (msg : μ) (end_ : String) (apply_style : Bool)
deriving DecidableEq

/-- RichCmd.pexcept (src lines 187-191): if `self.debug and sys.exc_info()
!= (None, None, None)` then `self.rich_err.print_exception(show_locals=True)`,
else `super().pexcept(msg, end=end, apply_style=apply_style)`. -/
def RichCmd.pexcept {μ : Type} (self : RichCmd) (excInfo : ExcInfo)
    (msg : μ) (end_ : String) (apply_style : Bool) : PexceptAction μ :=
  if self.host.debug && excInfo.isSome then
    PexceptAction.printException self.rich_err true
  else
    PexceptAction.superPexcept msg end_ apply_style

/-- RichCmd.pexcept as a state transformer: the method body (src lines
187-191) contains no attribute assignment, so the instance state is
returned unchanged next to the delegation it performs. -/
def RichCmd.pexceptStep {μ : Type} (self : RichCmd) (excInfo : ExcInfo)
    (msg : μ) (end_ : String) (apply_style : Bool) : RichCmd × PexceptAction μ :=
  (self, RichCmd.pexcept self excInfo msg end_ apply_style)

/-- RichCmd.pexcept with the two delegation targets passed in as fallible
renderers: the method body has no try/except around either call, so the
result of the chosen delegate is returned unchanged. -/
def RichCmd.pexceptTry {μ ε ρ : Type}
    (print_exception : Console → Bool → ExcInfo → Except ε ρ)
    (superImpl : μ → String → Bool → Except ε ρ)
    (self : RichCmd) (excInfo : ExcInfo)
    (msg : μ) (end_ : String) (apply_style : Bool) : Except ε ρ :=
  if self.host.debug && excInfo.isSome then
    print_exception self.rich_err true excInfo
  else
    superImpl msg end_ apply_style

/-- The Cmd2PrintProtocol operations (src lines 25-176). -/
inductive PrintOp where
  | print_to | poutput | perror | psuccess | pwarning | pfailure | pexcept | pfeedback
deriving DecidableEq, Repr

/-- Which protocol operations the RichCmd class body defines (src lines
179-191): only pexcept; __init__ is not a protocol operation. -/
def RichCmd.definesOp : PrintOp → Bool
  | PrintOp.pexcept => true
  | _ => false

/-- Linearized method dispatch with the mixin placed to the left of the base
class: an operation resolves to RichCmd's definition when RichCmd defines
it, and otherwise falls through to the host's own implementation. -/
def mroResolve {ι : Type} (richImpl hostImpl : PrintOp → ι) (op : PrintOp) : ι :=
  if RichCmd.definesOp op then richImpl op else hostImpl op

/-- Reassignment of the host's stdout attribute after construction: an
external action on the host object; nothing in rich.py performs it. -/
def RichCmd.setStdout (self : RichCmd) (h : StreamHandle) : RichCmd :=
  { self with host := { self.host with stdout := h } }

/-- The output channels of the host process. -/
inductive Chan where
  | stdout | stderr
deriving DecidableEq, Repr

/-- One observable write: the channel written to and the exact text. -/
structure WriteEvent where
  chan : Chan
  text : String
deriving DecidableEq, Repr

/-- The broken-pipe condition: destination stream closed or its peer gone. -/
inductive BrokenChannelError where
  | broken
deriving DecidableEq, Repr

/-- Modelled from the spec: the raw stream write underlying the host's
printing operations (the cmd2.Cmd implementations behind Cmd2PrintProtocol
are not under src/). Writing to a closed destination raises
BrokenChannelError; otherwise exactly the given text is written. -/
def rawWrite (destOpen : Bool) (dest : Chan) (text : String) :
    Except BrokenChannelError (List WriteEvent) :=
  if destOpen then Except.ok [⟨dest, text⟩] else Except.error BrokenChannelError.broken

/-- Modelled from the spec: the host's print_to (cmd2.Cmd, not under src/):
writes msg formatted by style (identity if absent) followed by the
end-terminator to the destination, and recovers a BrokenChannelError
locally, returning normally with no output produced. -/
def print_to (destOpen : Bool) (dest : Chan) (msg end_ : String)
    (style : Option (String → String)) : Except BrokenChannelError (List WriteEvent) :=
  match rawWrite destOpen dest ((style.getD id) msg ++ end_) with
  | Except.ok evs => Except.ok evs
  | Except.error _ => Except.ok []

/-- Modelled from the spec: the host's poutput (cmd2.Cmd, not under src/):
writes to the host's standard-output stream, applying the default output
style unless apply_style is false. -/
def poutput (style_output : String → String) (stdoutOpen : Bool)
    (msg end_ : String) (apply_style : Bool) : Except BrokenChannelError (List WriteEvent) :=
  print_to stdoutOpen Chan.stdout msg end_
    (if apply_style then some style_output else none)

/-- Modelled from the spec: the host's perror (cmd2.Cmd, not under src/):
writes to the error stream, applying the default error style unless
disabled. -/
def perror (style_error : String → String) (stderrOpen : Bool)
    (msg end_ : String) (apply_style : Bool) : Except BrokenChannelError (List WriteEvent) :=
  print_to stderrOpen Chan.stderr msg end_
    (if apply_style then some style_error else none)

/-- Modelled from the spec: the host's psuccess (cmd2.Cmd, not under src/):
writes to stdout with the fixed success style. -/
def psuccess (style_success : String → String) (stdoutOpen : Bool)
    (msg end_ : String) : Except BrokenChannelError (List WriteEvent) :=
  print_to stdoutOpen Chan.stdout msg end_ (some style_success)

/-- Modelled from the spec: the host's pwarning (cmd2.Cmd, not under src/):
writes to the error stream with the warning style unless disabled. -/
def pwarning (style_warning : String → String) (stderrOpen : Bool)
    (msg end_ : String) (apply_style : Bool) : Except BrokenChannelError (List WriteEvent) :=
  print_to stderrOpen Chan.stderr msg end_
    (if apply_style then some style_warning else none)

/-- Modelled from the spec: the host's pfailure (cmd2.Cmd, not under src/):
writes to the error stream with the fixed failure style. -/
def pfailure (style_error : String → String) (stderrOpen : Bool)
    (msg end_ : String) : Except BrokenChannelError (List WriteEvent) :=
  print_to stderrOpen Chan.stderr msg end_ (some style_error)

/-- Modelled from the spec: the host's pfeedback (cmd2.Cmd, not under src/):
suppressed entirely when the host quiet setting is on, otherwise writes to
stdout with the output style unless disabled. -/
def pfeedback (style_output : String → String) (quiet : Bool) (stdoutOpen : Bool)
    (msg end_ : String) (apply_style : Bool) : Except BrokenChannelError (List WriteEvent) :=
  if quiet then Except.ok []
  else print_to stdoutOpen Chan.stdout msg end_
    (if apply_style then some style_output else none)

/-- Modelled from the spec: the host's pexcept styled-message path (cmd2.Cmd,
not under src/), the target of the super().pexcept delegation: renders only
the message with the error style to the error stream. -/
def host_pexcept (style_error : String → String) (stderrOpen : Bool)
    (msg end_ : String) (apply_style : Bool) : Except BrokenChannelError (List WriteEvent) :=
  print_to stderrOpen Chan.stderr msg end_
    (if apply_style then some style_error else none)

/-- A concrete RichCmd instance used to instantiate theorems with a
hypothesis: debug off, stdout handle 1. -/
def sampleQuiet : RichCmd :=
  { host := { stdout := 1, debug := false }
    rich_out := { binding := ConsoleBinding.file 1 }
    rich_err := { binding := ConsoleBinding.stderrChannel } }

/-- A concrete RichCmd instance with debug on, stdout handle 1. -/
def sampleDebug : RichCmd :=
  { host := { stdout := 1, debug := true }
    rich_out := { binding := ConsoleBinding.file 1 }
    rich_err := { binding := ConsoleBinding.stderrChannel } }

/-- C1: RichCmd.pexcept delegates to the error-bound session's
print-exception-with-locals call exactly when the host's debug flag is true
and an exception context is active; in every other case it delegates to the
next-in-chain pexcept, passing msg, end and apply_style through unchanged. -/
theorem pexcept_delegation_iff {μ : Type} (self : RichCmd) (exc : ExcInfo)
    (msg : μ) (e : String) (a : Bool) :
    (RichCmd.pexcept self exc msg e a = PexceptAction.printException self.rich_err true
        ↔ (self.host.debug = true ∧ exc.isSome = true))
    ∧ (¬ (self.host.debug = true ∧ exc.isSome = true) →
        RichCmd.pexcept self exc msg e a = PexceptAction.superPexcept msg e a) := by
  unfold RichCmd.pexcept
  by_cases hd : self.host.debug = true <;> by_cases he : exc.isSome = true <;>
    simp [hd, he]

/-- Witness for C1: with debug on and no active exception, the call falls
through to the next-in-chain pexcept with the arguments intact. -/
theorem pexcept_delegation_iff_wit :
    RichCmd.pexcept sampleDebug none (0 : Nat) "\n" true
      = PexceptAction.superPexcept (0 : Nat) "\n" true :=
  (pexcept_delegation_iff sampleDebug none (0 : Nat) "\n" true).2 (by decide)

/-- C2: with debug false, RichCmd.pexcept does not depend on the ambient
exception context: any two invocations differing only in the exception
context perform the same delegation, which is the next-in-chain styled
message rendering, never a traceback. -/
theorem pexcept_debug_false_independent {μ : Type} (self : RichCmd)
    (exc1 exc2 : ExcInfo) (msg : μ) (e : String) (a : Bool)
    (hd : self.host.debug = false) :
    RichCmd.pexcept self exc1 msg e a = RichCmd.pexcept self exc2 msg e a
    ∧ RichCmd.pexcept self exc1 msg e a = PexceptAction.superPexcept msg e a := by
  unfold RichCmd.pexcept
  simp [hd]

/-- Witness for C2: a debug-off instance with an active exception in one run
and none in the other gives the identical superPexcept delegation. -/
theorem pexcept_debug_false_independent_wit :
    RichCmd.pexcept sampleQuiet (some 7) (0 : Nat) "\n" true
      = RichCmd.pexcept sampleQuiet none (0 : Nat) "\n" true
    ∧ RichCmd.pexcept sampleQuiet (some 7) (0 : Nat) "\n" true
      = PexceptAction.superPexcept (0 : Nat) "\n" true :=
  pexcept_debug_false_independent sampleQuiet (some 7) none (0 : Nat) "\n" true rfl

/-- C3: every Cmd2PrintProtocol operation other than pexcept is not defined
by RichCmd, so linearized dispatch resolves it to the host's own
implementation for all implementations and all such operations. -/
theorem non_pexcept_ops_resolve_to_host {ι : Type}
    (richImpl hostImpl : PrintOp → ι) (op : PrintOp)
    (hop : op ≠ PrintOp.pexcept) :
    mroResolve richImpl hostImpl op = hostImpl op := by
  unfold mroResolve RichCmd.definesOp
  cases op <;> simp_all

/-- Witness for C3: poutput resolves to the host implementation. -/
theorem non_pexcept_ops_resolve_to_host_wit :
    mroResolve (fun _ => (0 : Nat)) (fun _ => (1 : Nat)) PrintOp.poutput = 1 :=
  non_pexcept_ops_resolve_to_host (fun _ => (0 : Nat)) (fun _ => (1 : Nat))
    PrintOp.poutput (by decide)

/-- C4: for every argument list, RichCmd.init runs the host initializer on
the unchanged arguments, and the two sessions it then creates are bound to
the stdout handle the completed host initialization produced and to the
fixed error channel respectively. -/
theorem init_forwards_and_binds {α : Type} (hostInit : α → HostState) (args : α) :
    (RichCmd.init hostInit args).host = hostInit args
    ∧ (RichCmd.init hostInit args).rich_out.binding
        = ConsoleBinding.file (hostInit args).stdout
    ∧ (RichCmd.init hostInit args).rich_err.binding
        = ConsoleBinding.stderrChannel := by
  unfold RichCmd.init
  exact ⟨rfl, rfl, rfl⟩

/-- C5: a RichCmd instance holds exactly one stdout-bound session (rich_out)
and exactly one error-bound session (rich_err), both created in the
constructor, and the component's only operation, pexcept, returns the state
with both sessions unchanged: nothing ever recreates, replaces, or destroys
either session. -/
theorem sessions_unique_and_stable {α μ : Type}
    (hostInit : α → HostState) (args : α) (self : RichCmd)
    (exc : ExcInfo) (msg : μ) (e : String) (a : Bool) :
    (RichCmd.init hostInit args).rich_out.binding
        = ConsoleBinding.file (hostInit args).stdout
    ∧ (RichCmd.init hostInit args).rich_err.binding
        = ConsoleBinding.stderrChannel
    ∧ (RichCmd.pexceptStep self exc msg e a).1.rich_out = self.rich_out
    ∧ (RichCmd.pexceptStep self exc msg e a).1.rich_err = self.rich_err := by
  unfold RichCmd.init RichCmd.pexceptStep
  exact ⟨rfl, rfl, rfl, rfl⟩

/-- The write events a p* operation produced on the error channel. -/
def errEvents : Except BrokenChannelError (List WriteEvent) → List WriteEvent
  | Except.ok evs => evs.filter (fun ev => ev.chan == Chan.stderr)
  | Except.error _ => []

/-- C6: every p* printing operation invoked with its destination stream
closed recovers locally: it returns normally (Except.ok, so nothing is
raised to the caller) and produces no write event. -/
theorem broken_channel_recovered (so se sw ss : String → String) (dest : Chan)
    (sty : Option (String → String)) (m e : String) (a q : Bool) :
    print_to false dest m e sty = Except.ok []
    ∧ poutput so false m e a = Except.ok []
    ∧ perror se false m e a = Except.ok []
    ∧ psuccess ss false m e = Except.ok []
    ∧ pwarning sw false m e a = Except.ok []
    ∧ pfailure se false m e = Except.ok []
    ∧ pfeedback so q false m e a = Except.ok []
    ∧ host_pexcept se false m e a = Except.ok [] := by
  cases q <;>
    simp [print_to, rawWrite, poutput, perror, psuccess, pwarning, pfailure,
      pfeedback, host_pexcept]

/-- C7: on the debug-and-active-exception path, a failure of the error-bound
session's exception rendering is not caught by the override: RichCmd.pexcept
returns that very error unchanged to its caller. -/
theorem debug_render_failure_propagates {μ ε ρ : Type}
    (pe : Console → Bool → ExcInfo → Except ε ρ)
    (superImpl : μ → String → Bool → Except ε ρ)
    (self : RichCmd) (exc : ExcInfo) (msg : μ) (e : String) (a : Bool) (err : ε)
    (hd : self.host.debug = true) (he : exc.isSome = true)
    (hf : pe self.rich_err true exc = Except.error err) :
    RichCmd.pexceptTry pe superImpl self exc msg e a = Except.error err := by
  unfold RichCmd.pexceptTry
  simp [hd, he, hf]

/-- Witness for C7: a renderer that always fails makes the debug-path call
fail with the same error. -/
theorem debug_render_failure_propagates_wit :
    RichCmd.pexceptTry (fun _ _ _ => (Except.error 0 : Except Nat Unit))
      (fun (_ : Nat) _ _ => Except.ok ()) sampleDebug (some 3) (1 : Nat) "\n" true
      = Except.error 0 :=
  debug_render_failure_propagates (fun _ _ _ => (Except.error 0 : Except Nat Unit))
    (fun (_ : Nat) _ _ => Except.ok ()) sampleDebug (some 3) (1 : Nat) "\n" true 0
    rfl rfl rfl

/-- C8: on an open stream, poutput writes exactly style(m) ++ e to the
stdout channel when apply_style is true and exactly m ++ e when it is
false, and in both cases nothing reaches the error channel. -/
theorem poutput_exact_output (so : String → String) (m e : String) :
    poutput so true m e true = Except.ok [⟨Chan.stdout, so m ++ e⟩]
    ∧ poutput so true m e false = Except.ok [⟨Chan.stdout, m ++ e⟩]
    ∧ errEvents (poutput so true m e true) = []
    ∧ errEvents (poutput so true m e false) = [] := by
  simp [poutput, print_to, rawWrite, errEvents]

/-- C9: on the debug-and-active-exception path the msg, end and apply_style
arguments are discarded: any two invocations differing only in them (even
in the type of the message) perform the identical delegation,
printException on the error-bound session, a value that contains no
component derived from the caller's message. -/
theorem pexcept_debug_path_frame {μ1 μ2 : Type} (self : RichCmd) (exc : ExcInfo)
    (m1 : μ1) (m2 : μ2) (e1 e2 : String) (a1 a2 : Bool)
    (hd : self.host.debug = true) (he : exc.isSome = true) :
    RichCmd.pexcept self exc m1 e1 a1 = PexceptAction.printException self.rich_err true
    ∧ RichCmd.pexcept self exc m2 e2 a2 = PexceptAction.printException self.rich_err true := by
  unfold RichCmd.pexcept
  simp [hd, he]

/-- Witness for C9: with debug on and an active exception, a numeric message
and a string message with different end and apply_style arguments both
render as the same locals-showing exception printout. -/
theorem pexcept_debug_path_frame_wit :
    RichCmd.pexcept sampleDebug (some 3) (5 : Nat) "\n" true
      = PexceptAction.printException sampleDebug.rich_err true
    ∧ RichCmd.pexcept sampleDebug (some 3) "boom" "" false
      = PexceptAction.printException sampleDebug.rich_err true :=
  pexcept_debug_path_frame sampleDebug (some 3) (5 : Nat) "boom" "\n" "" true false
    rfl rfl

/-- C10: the stdout-bound session captures the stdout handle present at
construction: after the host's stdout attribute is reassigned to another
handle, rich_out is still bound to the original handle, and the component's
pexcept operation leaves rich_out untouched. -/
theorem rich_out_bound_at_construction {α : Type} (hostInit : α → HostState)
    (args : α) (h2 : StreamHandle) (exc : ExcInfo) (msg : Nat) (e : String) (a : Bool) :
    ((RichCmd.init hostInit args).setStdout h2).rich_out.binding
        = ConsoleBinding.file (hostInit args).stdout
    ∧ (RichCmd.pexceptStep ((RichCmd.init hostInit args).setStdout h2) exc msg e a).1.rich_out
        = (RichCmd.init hostInit args).rich_out := by
  unfold RichCmd.init RichCmd.setStdout RichCmd.pexceptStep
  exact ⟨rfl, rfl⟩
